import Mathlib

/-!
Shallow embedding of `src/BrowserSession.ts` from `aironin-browse-core`,
together with the host-language (JavaScript) string and number primitives
the code relies on, followed by theorems settling the specification claims.
-/

/-- JavaScript number values as far as the embedded code observes them:
`NaN`, signed infinity, or a finite value.  Finite values are modelled as
exact rationals; IEEE-754 rounding is omitted, which does not affect
NaN-ness — the only property the code inspects. -/
inductive JNum where
  | nan : JNum
  | inf (neg : Bool) : JNum
  | val (q : ℚ) : JNum
deriving DecidableEq, Repr

def digitsToNat (ds : List Char) : ℕ :=
  ds.foldl (fun acc c => 10 * acc + (c.toNat - 48)) 0

def hexDigitVal (c : Char) : Option ℕ :=
  if c.isDigit then some (c.toNat - 48)
  else if 97 ≤ c.toNat ∧ c.toNat ≤ 102 then some (c.toNat - 87)
  else if 65 ≤ c.toNat ∧ c.toNat ≤ 70 then some (c.toNat - 55)
  else none

def octDigitVal (c : Char) : Option ℕ :=
  if 48 ≤ c.toNat ∧ c.toNat ≤ 55 then some (c.toNat - 48) else none

def binDigitVal (c : Char) : Option ℕ :=
  if c = '0' then some 0 else if c = '1' then some 1 else none

def digitsToNatBase (base : ℕ) (vals : List ℕ) : ℕ :=
  vals.foldl (fun acc v => base * acc + v) 0

/-- A `0x`/`0o`/`0b` integer body: every char must be a digit of the base,
and at least one digit must be present, else `NaN`. -/
def parseRadix (base : ℕ) (digit : Char → Option ℕ) (ds : List Char) : JNum :=
  match ds.mapM digit with
  | some vs => if ds.isEmpty then .nan else .val (digitsToNatBase base vs)
  | none => .nan

/-- `[sign] digits` of an exponent; `none` when malformed. -/
def parseExpDigits (cs : List Char) : Option ℤ :=
  match cs with
  | '+' :: ds => if ds ≠ [] ∧ ds.all (·.isDigit) then some (digitsToNat ds : ℤ) else none
  | '-' :: ds => if ds ≠ [] ∧ ds.all (·.isDigit) then some (-(digitsToNat ds : ℤ)) else none
  | ds => if ds ≠ [] ∧ ds.all (·.isDigit) then some (digitsToNat ds : ℤ) else none

def parseExpPart (cs : List Char) : Option ℤ :=
  match cs with
  | [] => some 0
  | 'e' :: rest => parseExpDigits rest
  | 'E' :: rest => parseExpDigits rest
  | _ => none

def pow10 : ℕ → ℕ
  | 0 => 1
  | k + 1 => pow10 k * 10

/-- The exact value of a decimal literal with integer part `ip`, fraction
part `fp` and decimal exponent `e`: `digits(ip ++ fp) * 10 ^ (e - |fp|)`,
built with `Rat.divInt` so that it evaluates by kernel reduction. -/
def decValue (ip fp : List Char) (e : ℤ) : ℚ :=
  let m : ℕ := digitsToNat (ip ++ fp)
  match e - (fp.length : ℤ) with
  | .ofNat k => Rat.divInt (Int.ofNat (m * pow10 k)) 1
  | .negSucc k => Rat.divInt (Int.ofNat m) (Int.ofNat (pow10 (k + 1)))

/-- The unsigned-decimal-literal grammar of ECMAScript string-to-number:
`digits [. digits] [exp]` or `. digits [exp]`. -/
def parseDecLit (cs : List Char) : Option ℚ :=
  let ip := cs.takeWhile (·.isDigit)
  let rest := cs.dropWhile (·.isDigit)
  match rest with
  | '.' :: rest2 =>
    let fp := rest2.takeWhile (·.isDigit)
    let rest3 := rest2.dropWhile (·.isDigit)
    if ip = [] ∧ fp = [] then none
    else (parseExpPart rest3).map (decValue ip fp)
  | _ =>
    if ip = [] then none
    else (parseExpPart rest).map (decValue ip [])

def parseSignedDec (cs : List Char) (neg : Bool) : JNum :=
  if cs = "Infinity".data then .inf neg
  else match parseDecLit cs with
    | some q => .val (if neg then -q else q)
    | none => .nan

/-- Strip leading and trailing whitespace, as both ECMAScript string
trimming and WHATWG URL parsing do before interpreting a string. -/
def trimChars (cs : List Char) : List Char :=
  ((cs.dropWhile Char.isWhitespace).reverse.dropWhile Char.isWhitespace).reverse

/-- ECMAScript `Number(s)` on strings (the coercion used by
`coordinate.split(",").map(Number)` in the source): whitespace-trimmed;
the empty string is `0`; unsigned `0x`/`0o`/`0b` integer literals;
otherwise an optionally signed decimal literal or `Infinity`;
anything else is `NaN`. -/
def jsToNumber (s : String) : JNum :=
  let t := trimChars s.data
  if t = [] then .val 0
  else match t with
    | '0' :: 'x' :: ds => parseRadix 16 hexDigitVal ds
    | '0' :: 'X' :: ds => parseRadix 16 hexDigitVal ds
    | '0' :: 'o' :: ds => parseRadix 8 octDigitVal ds
    | '0' :: 'O' :: ds => parseRadix 8 octDigitVal ds
    | '0' :: 'b' :: ds => parseRadix 2 binDigitVal ds
    | '0' :: 'B' :: ds => parseRadix 2 binDigitVal ds
    | '+' :: rest => parseSignedDec rest false
    | '-' :: rest => parseSignedDec rest true
    | cs => parseSignedDec cs false

deriving instance DecidableEq for Except

def splitCharsComma (cs : List Char) : List (List Char) :=
  match cs with
  | [] => [[]]
  | c :: rest =>
    if c = ',' then [] :: splitCharsComma rest
    else
      match splitCharsComma rest with
      | [] => [[c]]
      | h :: t => (c :: h) :: t

/-- JavaScript `s.split(",")`: the empty string yields `[""]`, and every
comma starts a fresh (possibly empty) piece. -/
def jsSplitComma (s : String) : List String :=
  (splitCharsComma s.data).map String.mk

/-- `handleMouseInteraction`, lines 464-468 of `BrowserSession.ts`:
`const [x, y] = coordinate.split(",").map(Number)` followed by
`if (x === undefined || y === undefined || isNaN(x) || isNaN(y)) throw`.
A component is `undefined` exactly when the split produced fewer than two
pieces; `isNaN` holds exactly of `JNum.nan`. -/
def parseCoordinate (coordinate : String) : Except String (JNum × JNum) :=
  let nums := (jsSplitComma coordinate).map jsToNumber
  match nums[0]?, nums[1]? with
  | some x, some y =>
    if x = JNum.nan ∨ y = JNum.nan then
      .error ("Invalid coordinates: " ++ coordinate ++ ". Expected format: \"x,y\"")
    else .ok (x, y)
  | _, _ => .error ("Invalid coordinates: " ++ coordinate ++ ". Expected format: \"x,y\"")

/-- `resize`, lines 555-559: the same split/map/check applied to the size
string, with the size-specific error message. -/
def parseSizePair (size : String) : Except String (JNum × JNum) :=
  let nums := (jsSplitComma size).map jsToNumber
  match nums[0]?, nums[1]? with
  | some w, some h =>
    if w = JNum.nan ∨ h = JNum.nan then
      .error ("Invalid size: " ++ size ++ ". Expected format: \"width,height\"")
    else .ok (w, h)
  | _, _ => .error ("Invalid size: " ++ size ++ ". Expected format: \"width,height\"")

/-- The outcome of WHATWG URL parsing as far as `getRootDomain` observes
it: the scheme and the `host` property (hostname plus any explicit port,
lowercased). -/
structure URLParts where
  scheme : String
  host : String
deriving DecidableEq, Repr

def isSchemeChar (c : Char) : Bool :=
  c.isAlphanum ∨ c = '+' ∨ c = '-' ∨ c = '.'

/-- Schemes the WHATWG standard treats specially: their URLs always carry
an authority, even when the `//` is missing or multiplied. -/
def specialSchemes : List String := ["http", "https", "ws", "wss", "ftp", "file"]

/-- The authority section: everything up to the first `/ ? # \`; the host
is what follows the last `@` (userinfo is dropped).  An empty host is a
parse error except for `file:`. -/
def lowerChar (c : Char) : Char :=
  if 65 ≤ c.toNat ∧ c.toNat ≤ 90 then Char.ofNat (c.toNat + 32) else c

def parseAuthority (scheme : String) (cs : List Char) : Option URLParts :=
  let auth := cs.takeWhile (fun c => ¬(c = '/' ∨ c = '?' ∨ c = '#' ∨ c = '\\'))
  let rev := auth.reverse
  let hostport := (rev.takeWhile (· ≠ '@')).reverse
  if hostport = [] then
    if scheme = "file" then some { scheme := scheme, host := "" } else none
  else some { scheme := scheme, host := String.mk (hostport.map lowerChar) }

/-- The fragment of WHATWG URL parsing (`new URL(s)`) exercised by
`getRootDomain`: leading/trailing whitespace stripped; a scheme
(`alpha (alphanum|+|-|.)*`) followed by `:` is required; special schemes
then skip any run of slashes and read an authority; other schemes read an
authority only after `//`, and otherwise have an opaque path and an empty
host.  Percent-encoding, punycode, port validation and default-port
elision are not modelled — no claim depends on them. -/
def parseURLString (s : String) : Option URLParts :=
  match trimChars s.data with
  | [] => none
  | c :: rest =>
    if c.isAlpha then
      let schemeRest := rest.takeWhile isSchemeChar
      match rest.dropWhile isSchemeChar with
      | ':' :: after =>
        let scheme := String.mk ((c :: schemeRest).map lowerChar)
        if specialSchemes.contains scheme then
          parseAuthority scheme (after.dropWhile (fun c => c = '/' ∨ c = '\\'))
        else
          match after with
          | '/' :: '/' :: after2 => parseAuthority scheme after2
          | _ => some { scheme := scheme, host := "" }
      | _ => none
    else none

/-- `host.replace(/^www\./, "")`: strips one leading `www.`. -/
def stripWwwChars (h : List Char) : List Char :=
  if h.take 4 = ['w', 'w', 'w', '.'] then h.drop 4 else h

/-- `getRootDomain`, lines 311-320: host of the parsed URL with a leading
`www.` stripped; the input itself when URL parsing fails. -/
def getRootDomain (url : String) : String :=
  match parseURLString url with
  | some u => String.mk (stripWwwChars u.host.data)
  | none => url

/-- `url.replace(/\/$/, "")`: drops one trailing slash. -/
def stripTrailingSlash (s : String) : String :=
  match s.data.getLast? with
  | some '/' => String.mk s.data.dropLast
  | _ => s

/-- `waitTillHTMLStable`, lines 425-454, as a function of the sequence of
content sizes the successive `page.content()` calls would observe.  The
counter after processing sample `i`: it grows by one when the sample
equals its (nonzero) predecessor and resets to zero otherwise; the first
sample is compared against the initial `lastHTMLSize = 0` and so never
counts. -/
def stableCnt (sizes : ℕ → ℕ) : ℕ → ℕ
  | 0 => 0
  | i + 1 => if sizes i ≠ 0 ∧ sizes (i + 1) = sizes i then stableCnt sizes i + 1 else 0

/-- The loop body of `waitTillHTMLStable`: `i` samples already taken,
`fuel` iterations remaining (`maxChecks` minus the checks spent), `last`
the previous sample (`lastHTMLSize`) and `stable` the current
`countStableSizeIterations`.  Returns the total number of samples taken. -/
def waitAux (sizes : ℕ → ℕ) : ℕ → ℕ → ℕ → ℕ → ℕ
  | i, 0, _, _ => i
  | i, fuel + 1, last, stable =>
    if 3 ≤ (if last ≠ 0 ∧ sizes i = last then stable + 1 else 0) then i + 1
    else waitAux sizes (i + 1) fuel (sizes i) (if last ≠ 0 ∧ sizes i = last then stable + 1 else 0)

/-- `maxChecks = timeout / checkDuration = 5000 / 500 = 10`; the loop
starts with `checkCounts = 1`, `lastHTMLSize = 0` and
`countStableSizeIterations = 0`, so at most ten samples are taken. -/
def stableSampleCount (sizes : ℕ → ℕ) : ℕ :=
  waitAux sizes 0 10 0 0

/-- `findStop sizes i fuel`: the first sample index at which the loop
would break, phrased through `stableCnt`; used to relate `waitAux` to a
declarative description. -/
def findStop (sizes : ℕ → ℕ) : ℕ → ℕ → ℕ
  | i, 0 => i
  | i, fuel + 1 => if 3 ≤ stableCnt sizes i then i + 1 else findStop sizes (i + 1) fuel

/-- The claim's early-exit condition at sample `k`: the size was observed
unchanged at three consecutive samples `k-2`, `k-1`, `k` (each equal to
its predecessor, with the repeated value nonzero). -/
def threeStable (sizes : ℕ → ℕ) (k : ℕ) : Prop :=
  3 ≤ k ∧ sizes k = sizes (k - 1) ∧ sizes (k - 1) = sizes (k - 2) ∧
    sizes (k - 2) = sizes (k - 3) ∧ sizes (k - 3) ≠ 0

instance (sizes : ℕ → ℕ) (k : ℕ) : Decidable (threeStable sizes k) := by
  unfold threeStable; infer_instance

/-- `findCommentEnd cs = some after` when `cs` contains `-->`: `after` is
what follows the earliest occurrence, mirroring how the lazy regex
`<!--[\s\S]*?-->` ends a comment at the first `-->`. -/
def findCommentEnd : List Char → Option (List Char)
  | '-' :: '-' :: '>' :: after => some after
  | _ :: rest => findCommentEnd rest
  | [] => none

/-- The global replacement `htmlSource.replace(/<!--[\s\S]*?-->/g, "")`:
scan left to right; at `<!--` with a later `-->`, drop through that `-->`
and continue; at `<!--` with no later `-->` no match can start anywhere in
the rest, which is kept verbatim.  The fuel starts at the character count
and can never run out, since every step consumes at least one character. -/
def stripCommentsAux : ℕ → List Char → List Char
  | 0, cs => cs
  | _ + 1, [] => []
  | fuel + 1, '<' :: '!' :: '-' :: '-' :: rest =>
    match findCommentEnd rest with
    | some after => stripCommentsAux fuel after
    | none => '<' :: '!' :: '-' :: '-' :: rest
  | fuel + 1, c :: rest => c :: stripCommentsAux fuel rest

def stripComments (s : String) : String :=
  String.mk (stripCommentsAux s.data.length s.data)

/-- What `getPageSource` returns on its success path (lines 597-623);
`logs`, `currentUrl` and `currentMousePosition` are pass-throughs and
omitted here. -/
structure PageSourceResult where
  htmlSource : String
  originalLength : ℕ
  processedLength : ℕ
deriving DecidableEq, Repr

/-- `getPageSource(includeComments)`: requires a live page; reads the raw
content, strips comments only when `includeComments` is false, and
reports the raw and processed lengths. -/
def getPageSource (pageLive : Bool) (rawContent : String) (includeComments : Bool) :
    Except String PageSourceResult :=
  if ¬pageLive then
    .error "Browser is not launched. This may occur if the browser was automatically closed."
  else
    let processedSource := if ¬includeComments then stripComments rawContent else rawContent
    .ok { htmlSource := processedSource,
          originalLength := rawContent.length,
          processedLength := processedSource.length }

/-- The page's event-listener registrations, counted per event name.  The
initial counts are arbitrary, standing for listeners owned by other
parties: an operation that detaches exactly what it attached restores the
initial counts, while a blanket `removeAllListeners` would zero them. -/
structure Listeners where
  console : ℕ
  pageerror : ℕ
  request : ℕ
deriving DecidableEq, Repr

/-- An error thrown inside an action, as `doActionWithOptions` classifies
it: a puppeteer `TimeoutError` (silently swallowed) or any other error,
carried as its `toString()` rendering. -/
inductive JsErr where
  | timeout
  | other (msg : String)
deriving DecidableEq, Repr

/-- What running a caller-supplied action observably does: its outcome,
the listener counts it leaves behind, and the mouse position it leaves
recorded. -/
structure ActionOutcome where
  outcome : Except JsErr Unit
  listeners : Listeners
  mousePos : Option String
deriving DecidableEq, Repr

/-- Environment of one mouse interaction: whether the mouse primitive
itself (`page.mouse.click` / `page.mouse.move`) succeeds, and the error
it otherwise throws.  The navigation / stability waits that follow are
best-effort (`.catch(() => {})`) and are modelled as non-throwing. -/
structure MouseEnv where
  primitiveOk : Bool
  primitiveErr : JsErr
deriving Repr

/-- `handleMouseInteraction`, lines 459-497: parse the coordinate (the
throw happens before any listener is attached); attach the one-shot
`request` listener; run the primitive — when it throws, the trailing
`page.off("request", ...)` is never reached; on success record the
coordinate as the mouse position, wait, and detach the listener. -/
def handleMouseInteraction (coordinate : String) (env : MouseEnv)
    (ls : Listeners) (mouse : Option String) : ActionOutcome :=
  match parseCoordinate coordinate with
  | .error m => { outcome := .error (.other ("Error: " ++ m)), listeners := ls, mousePos := mouse }
  | .ok _ =>
    let ls1 := { ls with request := ls.request + 1 }
    if env.primitiveOk then
      { outcome := .ok (), listeners := { ls1 with request := ls1.request - 1 },
        mousePos := some coordinate }
    else
      { outcome := .error env.primitiveErr, listeners := ls1, mousePos := mouse }

/-- The `type`/`scrollDown`/`scrollUp` action bodies: no parsing, no extra
listeners; only the keyboard/scroll primitive, which may throw. -/
def plainAction (primitiveOk : Bool) (primitiveErr : JsErr)
    (ls : Listeners) (mouse : Option String) : ActionOutcome :=
  { outcome := if primitiveOk then .ok () else .error primitiveErr,
    listeners := ls, mousePos := mouse }

/-- The `resize` action body, lines 554-568: parse `"width,height"` (the
throw happens inside the action); the viewport / CDP window-bounds calls
are modelled as succeeding. -/
def resizeAction (size : String) (ls : Listeners) (mouse : Option String) : ActionOutcome :=
  match parseSizePair size with
  | .error m => { outcome := .error (.other ("Error: " ++ m)), listeners := ls, mousePos := mouse }
  | .ok _ => { outcome := .ok (), listeners := ls, mousePos := mouse }

/-- Screenshot acquisition, lines 269-292: take the webp screenshot; when
its base64 payload is empty (falsy), take one png screenshot; when that is
also empty, throw.  Returns the data URI together with the number of png
(fallback) capture calls made. -/
def screenshotStep (webp png : String) : Except String (String × ℕ) :=
  let screenshotBase64 := webp
  let screenshot := "data:image/webp;base64," ++ screenshotBase64
  if screenshotBase64 = "" then
    let fallback := png
    let screenshot2 := "data:image/png;base64," ++ fallback
    if fallback = "" then .error "Failed to take screenshot."
    else .ok (screenshot2, 1)
  else .ok (screenshot, 0)

/-- Environment of one `doActionWithOptions` run: the base64 payloads the
two possible screenshot calls would return, the page's current URL, and
the console/page-error lines the transient listeners collect. -/
structure DoActEnv where
  webp : String
  png : String
  currentUrl : String
  pageLogs : List String
deriving Repr

/-- The `BrowserActionResult` fields produced by `doActionWithOptions`. -/
structure ActResult where
  screenshot : String
  logs : String
  currentUrl : String
  currentMousePosition : Option String
deriving DecidableEq, Repr

/-- `doActionWithOptions`, lines 227-304: require a live page; attach the
`console` and `pageerror` listeners; run the action, folding any
non-timeout error into the logs instead of re-throwing; wait for log
quiescence (timeout swallowed); take the screenshot with its png fallback
— the fatal "Failed to take screenshot." throw happens *before* the two
`page.off` calls, which only run on the success path.  Returns the result
(or propagated fatal error), the final listener counts, and the final
recorded mouse position. -/
def doActionWithOptions (act : Listeners → Option String → ActionOutcome)
    (pageLive : Bool) (env : DoActEnv) (ls : Listeners) (mouse : Option String) :
    Except String ActResult × Listeners × Option String :=
  if ¬pageLive then
    (.error "Browser is not launched. This may occur if the browser was automatically closed.",
     ls, mouse)
  else
    let ls1 := { ls with console := ls.console + 1, pageerror := ls.pageerror + 1 }
    let a := act ls1 mouse
    let errLogs : List String :=
      match a.outcome with
      | .ok _ => []
      | .error .timeout => []
      | .error (.other m) => ["[Error] " ++ m]
    let logs := String.intercalate "\n" (env.pageLogs ++ errLogs)
    match screenshotStep env.webp env.png with
    | .error e => (.error e, a.listeners, a.mousePos)
    | .ok (screenshot, _) =>
      (.ok { screenshot := screenshot, logs := logs, currentUrl := env.currentUrl,
             currentMousePosition := a.mousePos },
       { a.listeners with console := a.listeners.console - 1,
                          pageerror := a.listeners.pageerror - 1 },
       a.mousePos)

/-- `click(coordinate)`, lines 499-505. -/
def clickOp (coordinate : String) (menv : MouseEnv) (pageLive : Bool) (env : DoActEnv)
    (ls : Listeners) (mouse : Option String) :
    Except String ActResult × Listeners × Option String :=
  doActionWithOptions (handleMouseInteraction coordinate menv) pageLive env ls mouse

/-- `hover(coordinate)`, lines 543-551: same structure as `click` with
`mouse.move` as the primitive. -/
def hoverOp (coordinate : String) (menv : MouseEnv) (pageLive : Bool) (env : DoActEnv)
    (ls : Listeners) (mouse : Option String) :
    Except String ActResult × Listeners × Option String :=
  doActionWithOptions (handleMouseInteraction coordinate menv) pageLive env ls mouse

/-- `resize(size)`, lines 553-569. -/
def resizeOp (size : String) (pageLive : Bool) (env : DoActEnv)
    (ls : Listeners) (mouse : Option String) :
    Except String ActResult × Listeners × Option String :=
  doActionWithOptions (resizeAction size) pageLive env ls mouse

/-- The payload `inspectElement` returns; the structured element
description is abstracted to a token (`ℕ`), since the claims only
distinguish "a record", "a null record" and "an error". -/
structure InspectResult where
  elementInfo : Option ℕ
  currentUrl : String
  currentMousePosition : Option String
deriving DecidableEq, Repr

/-- `inspectElement`, lines 795-900: require a live page; parse the
coordinate (this throw is re-raised after detaching the listeners, unlike
in `doAction`); call `page.evaluateHandle(elementFromPoint)` — which
always yields a JSHandle object, wrapping `null` when no element is at
the coordinate, so the `if (!element) throw "No element found"` guard can
never fire — then `page.evaluate` the handle, which returns `null` for a
null element, producing `elementInfo: null` in a *successful* result.
`elementAt` is the element the page exposes at the parsed coordinate. -/
def inspectElement (pageLive : Bool) (elementAt : Option ℕ) (coordinates : String)
    (currentUrl : String) (mouse : Option String) : Except String InspectResult :=
  if ¬pageLive then
    .error "Browser is not launched. This may occur if the browser was automatically closed."
  else
    match parseCoordinate coordinates with
    | .error m => .error m
    | .ok _ =>
      let element : Option (Option ℕ) := some elementAt
      match element with
      | none => .error ("No element found at coordinates " ++ coordinates)
      | some el =>
        .ok { elementInfo := el, currentUrl := currentUrl, currentMousePosition := mouse }

/-- What `navigateToUrl` decides to do with the browser's pages. -/
inductive NavAction where
  | navigated (pageIdx : ℕ) (url : String)
  | reloaded (pageIdx : ℕ)
  | created (url : String)
deriving DecidableEq, Repr

/-- The page-scanning loop of `navigateToUrl`, lines 368-380: the first
page whose URL is non-empty (truthy) and whose root domain matches. -/
def findMatchingPage : List String → String → Option ℕ
  | [], _ => none
  | u :: rest, root =>
    if u ≠ "" ∧ getRootDomain u = root then some 0
    else (findMatchingPage rest root).map (· + 1)

/-- `navigateToUrl`, lines 352-421, over the URLs of the currently open
pages: normalize the requested URL (one trailing slash stripped), compute
its root domain, and look for an open page with the same root domain.  On
a match the page becomes active and is brought to front, then is
navigated when its slash-stripped URL *still* has the requested root
domain and differs from the normalized URL, and reloaded otherwise; with
no match a new page is created and navigated. -/
def navigateToUrl (pageUrls : List String) (url : String) : NavAction :=
  match findMatchingPage pageUrls (getRootDomain (stripTrailingSlash url)) with
  | some i =>
    if getRootDomain (stripTrailingSlash (pageUrls.getD i "")) =
         getRootDomain (stripTrailingSlash url) ∧
       stripTrailingSlash (pageUrls.getD i "") ≠ stripTrailingSlash url then
      .navigated i (stripTrailingSlash url)
    else .reloaded i
  | none => .created (stripTrailingSlash url)

/-- The handle-owning state of a `BrowserSession` (storage path and
connection timestamp omitted); driver and page handles are identified by
tokens. -/
structure SessionState where
  browser : Option ℕ
  page : Option ℕ
  currentMousePosition : Option String
  isUsingRemoteBrowser : Bool
deriving DecidableEq, Repr

/-- The constructor: all handles empty. -/
def initialSession : SessionState :=
  { browser := none, page := none, currentMousePosition := none, isUsingRemoteBrowser := false }

/-- `resetBrowserState`, lines 216-221. -/
def resetBrowserState (_s : SessionState) : SessionState :=
  { browser := none, page := none, currentMousePosition := none, isUsingRemoteBrowser := false }

/-- Driver-handle lifecycle events, for tracking which drivers a launch
cycle closes and acquires. -/
inductive BrowserEv where
  | disconnected (d : ℕ)
  | terminated (d : ℕ)
  | acquired (d : ℕ)
deriving DecidableEq, Repr

/-- `closeBrowser`, lines 199-211: when a browser or page handle is held,
disconnect the driver if remote, terminate it otherwise, and reset all
state; idempotent on an empty session. -/
def closeBrowser (s : SessionState) : SessionState × List BrowserEv :=
  if s.browser.isSome ∨ s.page.isSome then
    let evs := match s.browser with
      | some d => if s.isUsingRemoteBrowser then [BrowserEv.disconnected d] else [BrowserEv.terminated d]
      | none => []
    (resetBrowserState s, evs)
  else (s, [])

/-- Environment of one `launchBrowser` call: configuration and the
driver/page handles the external driver would hand out. -/
structure LaunchEnv where
  remoteBrowserEnabled : Bool
  remoteConnectOk : Bool
  remoteDriver : ℕ
  remoteFirstPage : Option ℕ
  remoteNewPage : ℕ
  localDriver : ℕ
  localPage : ℕ
deriving Repr

/-- `launchLocalBrowser`, lines 50-70: spawn a driver, clear the remote
flag, open a fresh page.  The previously held handles are overwritten,
not closed here. -/
def launchLocalBrowser (s : SessionState) (env : LaunchEnv) : SessionState × List BrowserEv :=
  ({ s with browser := some env.localDriver, isUsingRemoteBrowser := false,
            page := some env.localPage },
   [BrowserEv.acquired env.localDriver])

/-- `connectWithChromeHostUrl`, lines 75-110, success path: connect to the
remote driver, set the remote flag, adopt the first existing page or a
new one.  The previously held handles are overwritten, not closed. -/
def connectRemote (s : SessionState) (env : LaunchEnv) : SessionState × List BrowserEv :=
  ({ s with browser := some env.remoteDriver, isUsingRemoteBrowser := true,
            page := some (env.remoteFirstPage.getD env.remoteNewPage) },
   [BrowserEv.acquired env.remoteDriver])

/-- `launchBrowser`, lines 168-194: with remote disabled, close the prior
browser if one is held (else just reset) and launch locally; with remote
enabled, try the remote connection and fall back to a local launch —
neither remote path closes a previously held driver first. -/
def launchBrowser (s : SessionState) (env : LaunchEnv) : SessionState × List BrowserEv :=
  if ¬env.remoteBrowserEnabled then
    let closed := if s.browser.isSome then closeBrowser s else (resetBrowserState s, [])
    let launched := launchLocalBrowser closed.1 env
    (launched.1, closed.2 ++ launched.2)
  else
    if env.remoteConnectOk then connectRemote s env
    else launchLocalBrowser s env

/-- `createNewTab` + `navigateToUrl` at the session level: require a
driver handle; the active page becomes the matched page (identified by
its index among the open pages) or a newly created one (index
`pageUrls.length`). -/
def navigateToUrlSession (s : SessionState) (pageUrls : List String) (url : String) :
    Except String (SessionState × NavAction) :=
  if s.browser.isNone then .error "Browser is not launched"
  else
    match navigateToUrl pageUrls url with
    | .navigated i u => .ok ({ s with page := some i }, .navigated i u)
    | .reloaded i => .ok ({ s with page := some i }, .reloaded i)
    | .created u => .ok ({ s with page := some pageUrls.length }, .created u)

/-- A `doAction`-family operation (`click`, `hover`, `type`, `scroll*`,
`resize`) at the session level: the handles are untouched; only the
recorded mouse position can change. -/
def doActionSession (act : Listeners → Option String → ActionOutcome)
    (s : SessionState) (env : DoActEnv) (ls : Listeners) :
    Except String ActResult × SessionState × Listeners :=
  let r := doActionWithOptions act s.page.isSome env ls s.currentMousePosition
  (r.1, { s with currentMousePosition := r.2.2 }, r.2.1)

/-- `getPageSource` at the session level: requires a live page, never
assigns `this.browser`, `this.page` or the mouse position.
`getPageTitle` and `getPageMeta` have the same state behaviour. -/
def getPageSourceSession (s : SessionState) (rawContent : String) (includeComments : Bool) :
    Except String PageSourceResult × SessionState :=
  (getPageSource s.page.isSome rawContent includeComments, s)

/-- `inspectElement` at the session level: requires a live page, never
assigns `this.browser`, `this.page` or the mouse position. -/
def inspectElementSession (s : SessionState) (elementAt : Option ℕ)
    (coordinates currentUrl : String) : Except String InspectResult × SessionState :=
  (inspectElement s.page.isSome elementAt coordinates currentUrl s.currentMousePosition, s)

/-- The session invariant of the data-model section: a page handle is held
only while a driver handle is held. -/
def pageImpliesBrowser (s : SessionState) : Prop :=
  s.page.isSome → s.browser.isSome

theorem findCommentEnd_length : ∀ (l after : List Char), findCommentEnd l = some after →
    after.length ≤ l.length := by
  intro l
  induction l with
  | nil => intro a h; simp [findCommentEnd] at h
  | cons c rest ih =>
    intro a h
    unfold findCommentEnd at h
    split at h
    · rename_i heq
      injection heq with h1 h2
      injection h with h3
      subst h2 h3
      simp
      omega
    · rename_i heq2
      injection heq2 with h1 h2
      subst h2
      have := ih a h
      simp only [List.length_cons]
      omega
    · exact absurd h (by simp)

theorem stripCommentsAux_length : ∀ (fuel : ℕ) (cs : List Char),
    (stripCommentsAux fuel cs).length ≤ cs.length := by
  intro fuel cs
  induction fuel, cs using stripCommentsAux.induct with
  | case1 cs => simp [stripCommentsAux]
  | case2 fuel => simp [stripCommentsAux]
  | case3 fuel rest after hfc ih =>
    rw [stripCommentsAux, hfc]
    have := findCommentEnd_length rest after hfc
    simp only [List.length_cons]
    omega
  | case4 fuel rest hfc =>
    rw [stripCommentsAux, hfc]
  | case5 fuel c rest h1 ih =>
    rw [stripCommentsAux]
    · simp only [List.length_cons]; omega
    · exact h1

theorem mem_of_mem_dropWhile {p : Char → Bool} {l : List Char} {a : Char}
    (h : a ∈ l.dropWhile p) : a ∈ l := by
  induction l with
  | nil => simp at h
  | cons c rest ih =>
    rw [List.dropWhile_cons] at h
    by_cases hp : p c = true
    · simp only [hp, if_true] at h
      exact List.mem_cons_of_mem c (ih h)
    · simp only [hp, if_false] at h
      exact h

theorem mem_of_mem_trimChars {l : List Char} {a : Char} (h : a ∈ trimChars l) : a ∈ l := by
  unfold trimChars at h
  rw [List.mem_reverse] at h
  have h2 := mem_of_mem_dropWhile h
  rw [List.mem_reverse] at h2
  exact mem_of_mem_dropWhile h2

/-- A string the WHATWG parser accepts contains a colon (the one ending
its scheme). -/
theorem parseURLString_colon (s : String) (u : URLParts)
    (h : parseURLString s = some u) : ':' ∈ s.data := by
  unfold parseURLString at h
  apply mem_of_mem_trimChars (l := s.data)
  rcases htc : trimChars s.data with _ | ⟨c, rest⟩
  · rw [htc] at h; exact absurd h (by simp)
  · rw [htc] at h
    by_cases hca : c.isAlpha = true
    · simp only [hca, if_true] at h
      rcases hdw : rest.dropWhile isSchemeChar with _ | ⟨c2, rest2⟩ <;> rw [hdw] at h
      · exact absurd h (by simp)
      · by_cases hc2 : c2 = ':'
        · subst hc2
          have : ':' ∈ rest.dropWhile isSchemeChar := by rw [hdw]; exact List.mem_cons_self _ _
          exact List.mem_cons_of_mem c (mem_of_mem_dropWhile this)
        · exact absurd h (by split at h <;> simp_all)
    · simp only [hca, if_false] at h
      exact absurd h (by simp)

theorem findMatchingPage_none (pageUrls : List String) (root : String)
    (h : ∀ u ∈ pageUrls, ¬(u ≠ "" ∧ getRootDomain u = root)) :
    findMatchingPage pageUrls root = none := by
  induction pageUrls with
  | nil => rfl
  | cons u rest ih =>
    rw [findMatchingPage]
    have hu := h u (List.mem_cons_self _ _)
    rw [if_neg hu, ih fun v hv => h v (List.mem_cons_of_mem u hv)]
    rfl

theorem findMatchingPage_isSome (pageUrls : List String) (root : String)
    (h : ∃ u ∈ pageUrls, u ≠ "" ∧ getRootDomain u = root) :
    (findMatchingPage pageUrls root).isSome := by
  induction pageUrls with
  | nil => simp at h
  | cons u rest ih =>
    rw [findMatchingPage]
    by_cases hu : u ≠ "" ∧ getRootDomain u = root
    · rw [if_pos hu]; rfl
    · rw [if_neg hu]
      rcases h with ⟨v, hv, hvp⟩
      rcases List.mem_cons.mp hv with rfl | hv2

      · exact absurd hvp hu
      · have := ih ⟨v, hv2, hvp⟩
        rcases hfm : findMatchingPage rest root with _ | i
        · rw [hfm] at this; simp at this
        · rfl

theorem findMatchingPage_spec (pageUrls : List String) (root : String) (i : ℕ)
    (h : findMatchingPage pageUrls root = some i) :
    i < pageUrls.length ∧ pageUrls.getD i "" ≠ "" ∧ getRootDomain (pageUrls.getD i "") = root := by
  induction pageUrls generalizing i with
  | nil => exact absurd h (by simp [findMatchingPage])
  | cons u rest ih =>
    rw [findMatchingPage] at h
    by_cases hu : u ≠ "" ∧ getRootDomain u = root
    · rw [if_pos hu] at h
      injection h with h1
      subst h1
      exact ⟨by simp, by simpa using hu⟩
    · rw [if_neg hu] at h
      rcases hfm : findMatchingPage rest root with _ | j
      · rw [hfm] at h; exact absurd h (by simp)
      · rw [hfm] at h
        have h1 : j + 1 = i := by simpa using h
        subst h1
        have := ih j hfm
        refine ⟨by simpa using this.1, by simpa using this.2.1, by simpa using this.2.2⟩

theorem stableCnt_le (sizes : ℕ → ℕ) : ∀ k, stableCnt sizes k ≤ k := by
  intro k
  induction k with
  | zero => simp [stableCnt]
  | succ m ih =>
    rw [stableCnt]
    split
    · omega
    · omega

theorem stableCnt_three_iff (sizes : ℕ → ℕ) (k : ℕ) :
    3 ≤ stableCnt sizes k ↔ threeStable sizes k := by
  constructor
  · intro h
    have hk : 3 ≤ k := le_trans h (stableCnt_le sizes k)
    obtain ⟨m, rfl⟩ : ∃ m, k = m + 3 := ⟨k - 3, by omega⟩
    rw [stableCnt] at h
    split at h
    · rename_i c3
      rw [stableCnt] at h
      split at h
      · rename_i c2
        rw [stableCnt] at h
        split at h
        · rename_i c1
          refine ⟨by omega, ?_, ?_, ?_, ?_⟩
          · show sizes (m + 3) = sizes (m + 3 - 1); simpa using c3.2
          · show sizes (m + 3 - 1) = sizes (m + 3 - 2)
            have : m + 3 - 1 = m + 2 := by omega
            rw [this]
            have : m + 3 - 2 = m + 1 := by omega
            rw [this]
            exact c2.2
          · show sizes (m + 3 - 2) = sizes (m + 3 - 3)
            have h1 : m + 3 - 2 = m + 1 := by omega
            have h2 : m + 3 - 3 = m := by omega
            rw [h1, h2]
            exact c1.2
          · show sizes (m + 3 - 3) ≠ 0
            have h2 : m + 3 - 3 = m := by omega
            rw [h2]
            exact c1.1
        · omega
      · omega
    · omega
  · rintro ⟨hk, h1, h2, h3, h4⟩
    obtain ⟨m, rfl⟩ : ∃ m, k = m + 3 := ⟨k - 3, by omega⟩
    have e1 : m + 3 - 1 = m + 2 := by omega
    have e2 : m + 3 - 2 = m + 1 := by omega
    have e3 : m + 3 - 3 = m := by omega
    rw [e1] at h1 h2
    rw [e2] at h2 h3
    rw [e3] at h3 h4
    have s1 : stableCnt sizes (m + 1) = stableCnt sizes m + 1 := by
      rw [stableCnt, if_pos ⟨h4, h3⟩]
    have s2 : stableCnt sizes (m + 2) = stableCnt sizes (m + 1) + 1 := by
      rw [stableCnt, if_pos ⟨by rw [h3]; exact h4, h2⟩]
    have s3 : stableCnt sizes (m + 3) = stableCnt sizes (m + 2) + 1 := by
      rw [stableCnt, if_pos ⟨by rw [h2, h3]; exact h4, h1⟩]
    omega

theorem waitAux_eq_findStop (sizes : ℕ → ℕ) :
    ∀ (fuel i : ℕ),
      waitAux sizes (i + 1) fuel (sizes i) (stableCnt sizes i) = findStop sizes (i + 1) fuel := by
  intro fuel
  induction fuel with
  | zero => intro i; rfl
  | succ n ih =>
    intro i
    rw [waitAux, findStop]
    have hst : (if sizes i ≠ 0 ∧ sizes (i + 1) = sizes i then stableCnt sizes i + 1 else 0) =
        stableCnt sizes (i + 1) := by rw [stableCnt]
    rw [hst]
    split
    · rfl
    · exact ih (i + 1)

theorem stableSampleCount_eq_findStop (sizes : ℕ → ℕ) :
    stableSampleCount sizes = findStop sizes 0 10 := by
  unfold stableSampleCount
  rw [waitAux]
  have hc : ¬(3 ≤ if (0 : ℕ) ≠ 0 ∧ sizes 0 = 0 then 0 + 1 else 0) := by simp
  rw [if_neg hc]
  have h0 : (if (0 : ℕ) ≠ 0 ∧ sizes 0 = 0 then 0 + 1 else 0) = stableCnt sizes 0 := by
    simp [stableCnt]
  rw [h0, waitAux_eq_findStop sizes 9 0]
  have hns : ¬(3 ≤ stableCnt sizes 0) := by simp [stableCnt]
  conv_rhs => rw [findStop, if_neg hns]

theorem findStop_le (sizes : ℕ → ℕ) : ∀ (fuel i : ℕ), findStop sizes i fuel ≤ i + fuel := by
  intro fuel
  induction fuel with
  | zero => intro i; simp [findStop]
  | succ n ih =>
    intro i
    rw [findStop]
    split
    · omega
    · have := ih (i + 1)
      omega

theorem findStop_early (sizes : ℕ → ℕ) :
    ∀ (fuel i k : ℕ), i ≤ k → k < i + fuel → 3 ≤ stableCnt sizes k →
      (∀ j, i ≤ j → j < k → stableCnt sizes j < 3) → findStop sizes i fuel = k + 1 := by
  intro fuel
  induction fuel with
  | zero => intro i k h1 h2 _ _; omega
  | succ n ih =>
    intro i k h1 h2 h3 h4
    rw [findStop]
    by_cases hik : i = k
    · subst hik
      rw [if_pos h3]
    · have hlt : stableCnt sizes i < 3 := h4 i le_rfl (by omega)
      rw [if_neg (by omega)]
      exact ih (i + 1) k (by omega) (by omega) h3 fun j hj1 hj2 => h4 j (by omega) hj2

/-- **C2**: in the action executor, an empty webp capture triggers exactly
one png fallback capture; an empty fallback makes the executor raise
`Failed to take screenshot.` instead of returning a result; on success the
screenshot is `data:image/webp;base64,<payload>`, or
`data:image/png;base64,<payload>` exactly when the fallback was taken. -/
theorem c2_screenshot_fallback (webp png : String) :
    (webp ≠ "" → screenshotStep webp png = .ok ("data:image/webp;base64," ++ webp, 0)) ∧
    (webp = "" → png ≠ "" → screenshotStep webp png = .ok ("data:image/png;base64," ++ png, 1)) ∧
    (webp = "" → png = "" → screenshotStep webp png = .error "Failed to take screenshot.") ∧
    (∀ (act : Listeners → Option String → ActionOutcome) (url : String) (plogs : List String)
       (ls : Listeners) (mouse : Option String),
       (webp = "" → png = "" →
          (doActionWithOptions act true ⟨webp, png, url, plogs⟩ ls mouse).1 =
            .error "Failed to take screenshot.") ∧
       (∀ r, (doActionWithOptions act true ⟨webp, png, url, plogs⟩ ls mouse).1 = .ok r →
          r.screenshot = if webp = "" then "data:image/png;base64," ++ png
            else "data:image/webp;base64," ++ webp)) := by
  by_cases hw : webp = "" <;> by_cases hp : png = "" <;>
    refine ⟨?_, ?_, ?_, fun act url plogs ls mouse => ⟨?_, fun r hr => ?_⟩⟩ <;>
    simp_all [screenshotStep, doActionWithOptions] <;>
    simp [← hr]

/-- Witness for C2: concrete payloads exercising the fallback, the fatal
double failure, and the no-fallback success. -/
theorem c2_screenshot_fallback_witness :
    screenshotStep "" "PNG" = .ok ("data:image/png;base64,PNG", 1) ∧
    screenshotStep "" "" = .error "Failed to take screenshot." ∧
    screenshotStep "WEBP" "" = .ok ("data:image/webp;base64,WEBP", 0) :=
  ⟨(c2_screenshot_fallback "" "PNG").2.1 rfl (by decide),
   (c2_screenshot_fallback "" "").2.2.1 rfl rfl,
   (c2_screenshot_fallback "WEBP" "").1 (by decide)⟩

/-- **C4** (code bug): at a well-formed coordinate that resolves to no
element, `inspectElement` does *not* raise an error — `evaluateHandle`
wraps the page's `null` in a truthy JSHandle, so the
`if (!element) throw "No element found"` guard is unreachable, and the
call returns a successful result with a null `elementInfo`. -/
theorem c4_inspect_no_element :
    inspectElement true none "10000,10000" "https://example.com" none =
      .ok { elementInfo := none, currentUrl := "https://example.com",
            currentMousePosition := none } := by decide

/-- **C7**: the stability loop takes at most 10 samples for every size
sequence, and returns right after sample `k` whenever `k` is the first
sample at which the size has been observed unchanged at three consecutive
samples (each equal to its nonzero predecessor). -/
theorem c7_stability_bound (sizes : ℕ → ℕ) :
    stableSampleCount sizes ≤ 10 ∧
    ∀ k, k < 10 → threeStable sizes k → (∀ j, j < k → ¬threeStable sizes j) →
      stableSampleCount sizes = k + 1 := by
  constructor
  · rw [stableSampleCount_eq_findStop]
    simpa using findStop_le sizes 10 0
  · intro k hk h3 hmin
    rw [stableSampleCount_eq_findStop]
    refine findStop_early sizes 10 0 k (Nat.zero_le k) (by omega)
      ((stableCnt_three_iff sizes k).mpr h3) ?_
    intro j _ hj
    by_contra hc
    push_neg at hc
    exact hmin j hj ((stableCnt_three_iff sizes j).mp hc)

/-- Witness for C7: a constantly nonzero size sequence stabilizes after
the fourth sample (three consecutive unchanged observations). -/
theorem c7_stability_bound_witness :
    stableSampleCount (fun _ => 5) = 4 ∧ stableSampleCount (fun _ => 5) ≤ 10 :=
  ⟨(c7_stability_bound (fun _ => 5)).2 3 (by decide) (by decide) (by decide),
   (c7_stability_bound (fun _ => 5)).1⟩

/-- **C8** (amended): root-domain normalization is idempotent on every
input whose normalized form contains no colon — in particular on both
spec examples, which normalize to `example.com` — but a normalized form
that keeps a port (e.g. `localhost:3000`) re-parses as a
`scheme:opaque-path` URL and is not a fixed point. -/
theorem c8_root_domain_idempotent :
    (∀ s : String, ':' ∉ (getRootDomain s).data →
       getRootDomain (getRootDomain s) = getRootDomain s) ∧
    getRootDomain "http://www.example.com/" = "example.com" ∧
    getRootDomain "https://example.com" = "example.com" := by
  refine ⟨?_, by decide, by decide⟩
  intro s h
  rcases hp2 : parseURLString (getRootDomain s) with _ | u2
  · generalize hgen : getRootDomain s = t at hp2 ⊢
    unfold getRootDomain
    rw [hp2]
  · exact absurd (parseURLString_colon _ u2 hp2) h

/-- Counterexample for C8 as stated: the code's own doc-comment example
`http://localhost:3000/path` normalizes to `localhost:3000`, which
re-normalizes to the empty string — idempotency fails there. -/
theorem c8_root_domain_counterexample :
    getRootDomain "http://localhost:3000/path" = "localhost:3000" ∧
    getRootDomain (getRootDomain "http://localhost:3000/path") = "" ∧
    getRootDomain (getRootDomain "http://localhost:3000/path") ≠
      getRootDomain "http://localhost:3000/path" := by decide

/-- Witness for C8: the amended idempotency instantiated at
`https://example.com`. -/
theorem c8_root_domain_witness :
    getRootDomain (getRootDomain "https://example.com") = getRootDomain "https://example.com" :=
  c8_root_domain_idempotent.1 "https://example.com" (by decide)

/-- **C10**: a successful `getPageSource` reports `processedLength ≤
originalLength`; with comments included the markup is the raw content and
the lengths agree; with comments excluded the markup is the raw content
with every `<!-- ... -->` comment removed while `originalLength` still
reports the raw length. -/
theorem c10_page_source (pageLive : Bool) (rawContent : String) (includeComments : Bool)
    (r : PageSourceResult) (h : getPageSource pageLive rawContent includeComments = .ok r) :
    r.processedLength ≤ r.originalLength ∧
    (includeComments = true → r.htmlSource = rawContent ∧ r.processedLength = r.originalLength) ∧
    (includeComments = false → r.htmlSource = stripComments rawContent ∧
      r.originalLength = rawContent.length) := by
  cases pageLive with
  | false => exact absurd h (by simp [getPageSource])
  | true =>
    unfold getPageSource at h
    rw [if_neg (by simp)] at h
    obtain rfl :
        ({ htmlSource := if ¬includeComments then stripComments rawContent else rawContent,
           originalLength := rawContent.length,
           processedLength := (if ¬includeComments then stripComments rawContent
             else rawContent).length } : PageSourceResult) = r := Except.ok.inj h
    cases includeComments with
    | true => simp
    | false =>
      have hlen : (stripComments rawContent).length ≤ rawContent.length :=
        stripCommentsAux_length rawContent.data.length rawContent.data
      simp [hlen]

/-- Witness for C10: a concrete page source with one comment. -/
theorem c10_page_source_witness :
    getPageSource true "a<!--b-->c" false =
      .ok { htmlSource := "ac", originalLength := 10, processedLength := 2 } ∧
    ({ htmlSource := "ac", originalLength := 10, processedLength := 2 } :
      PageSourceResult).processedLength ≤ 10 := by
  have h : getPageSource true "a<!--b-->c" false =
      .ok { htmlSource := "ac", originalLength := 10, processedLength := 2 } := by decide
  exact ⟨h, (c10_page_source true "a<!--b-->c" false _ h).1⟩

/-- Counterexample for C1 as stated: on the malformed coordinate
`abc,def`, `click` does not fail — `doAction` catches the parse error,
folds it into the logs, and returns a successful result with a
screenshot. -/
theorem c1_coordinate_counterexample :
    clickOp "abc,def" ⟨true, JsErr.timeout⟩ true ⟨"W", "", "u", []⟩ ⟨0, 0, 0⟩ none =
      (.ok { screenshot := "data:image/webp;base64,W",
             logs := "[Error] Error: Invalid coordinates: abc,def. Expected format: \"x,y\"",
             currentUrl := "u", currentMousePosition := none }, ⟨0, 0, 0⟩, none) := by decide

/-- **C1** (amended): the shared coordinate/size parse rejects (throws)
exactly when the comma-split has fewer than two components or one of the
first two coerces to NaN — an empty or whitespace component coerces to 0
rather than being rejected — and on success yields the first two
components as JS numbers; the thrown malformed-input error never reaches
the caller of `click`/`hover`/`resize`: the action executor catches it,
appends it to the logs, and still returns a screenshot-bearing result
with the mouse position and listeners untouched. -/
theorem c1_coordinate_parsing :
    (∀ s : String,
       (∀ x y rest, (jsSplitComma s).map jsToNumber = x :: y :: rest →
          parseCoordinate s = (if x = JNum.nan ∨ y = JNum.nan then
              .error ("Invalid coordinates: " ++ s ++ ". Expected format: \"x,y\"")
            else .ok (x, y)) ∧
          parseSizePair s = (if x = JNum.nan ∨ y = JNum.nan then
              .error ("Invalid size: " ++ s ++ ". Expected format: \"width,height\"")
            else .ok (x, y))) ∧
       (((jsSplitComma s).map jsToNumber).length < 2 →
          parseCoordinate s =
            .error ("Invalid coordinates: " ++ s ++ ". Expected format: \"x,y\"") ∧
          parseSizePair s =
            .error ("Invalid size: " ++ s ++ ". Expected format: \"width,height\""))) ∧
    (∀ (coordinate : String) (menv : MouseEnv) (env : DoActEnv) (ls : Listeners)
       (mouse : Option String) (m : String),
       parseCoordinate coordinate = .error m → env.webp ≠ "" →
       clickOp coordinate menv true env ls mouse =
         (.ok { screenshot := "data:image/webp;base64," ++ env.webp,
                logs := String.intercalate "\n" (env.pageLogs ++ ["[Error] " ++ ("Error: " ++ m)]),
                currentUrl := env.currentUrl, currentMousePosition := mouse }, ls, mouse)) ∧
    (∀ (size : String) (env : DoActEnv) (ls : Listeners) (mouse : Option String) (m : String),
       parseSizePair size = .error m → env.webp ≠ "" →
       resizeOp size true env ls mouse =
         (.ok { screenshot := "data:image/webp;base64," ++ env.webp,
                logs := String.intercalate "\n" (env.pageLogs ++ ["[Error] " ++ ("Error: " ++ m)]),
                currentUrl := env.currentUrl, currentMousePosition := mouse }, ls, mouse)) ∧
    (∀ (coordinate : String) (menv : MouseEnv) (pageLive : Bool) (env : DoActEnv)
       (ls : Listeners) (mouse : Option String),
       hoverOp coordinate menv pageLive env ls mouse =
         clickOp coordinate menv pageLive env ls mouse) := by
  refine ⟨fun s => ⟨?_, ?_⟩, ?_, ?_, fun _ _ _ _ _ _ => rfl⟩
  · intro x y rest hmap
    constructor <;>
      simp only [parseCoordinate, parseSizePair, hmap, List.getElem?_cons_zero,
        List.getElem?_cons_succ]
  · intro hlen
    rcases hm : (jsSplitComma s).map jsToNumber with _ | ⟨x, tail⟩
    · constructor <;> simp [parseCoordinate, parseSizePair, hm]
    · rcases tail with _ | ⟨y, t2⟩
      · constructor <;> simp [parseCoordinate, parseSizePair, hm]
      · rw [hm] at hlen
        simp at hlen
        omega
  · intro coordinate menv env ls mouse m hparse hwebp
    simp [clickOp, doActionWithOptions, handleMouseInteraction, hparse, screenshotStep, hwebp]
  · intro size env ls mouse m hparse hwebp
    simp [resizeOp, doActionWithOptions, resizeAction, hparse, screenshotStep, hwebp]

/-- Witness for C1: a valid coordinate parses to its two components, and
a one-component coordinate is rejected. -/
theorem c1_coordinate_witness :
    parseCoordinate "100,200" = .ok (.val 100, .val 200) ∧
    parseCoordinate "100" = .error "Invalid coordinates: 100. Expected format: \"x,y\"" := by
  constructor
  · have h := (c1_coordinate_parsing.1 "100,200").1 (jsToNumber "100") (jsToNumber "200") []
      (by decide)
    rw [h.1]
    decide
  · exact ((c1_coordinate_parsing.1 "100").2 (by decide)).1

/-- Counterexample for C6 as stated: when both screenshot formats come
back empty, the executor throws with the two transient listeners still
attached — the error exit does not detach them. -/
theorem c6_listener_counterexample :
    clickOp "1,2" ⟨true, JsErr.timeout⟩ true ⟨"", "", "u", []⟩ ⟨0, 0, 0⟩ none =
      (.error "Failed to take screenshot.", ⟨1, 1, 0⟩, some "1,2") := by decide

/-- **C6** (amended): the executor detaches exactly its two transient
listeners on every non-fatal exit (initial counts, standing for listeners
owned by others, are restored, so no blanket removal ever happens), but
the fatal screenshot-failure exit leaves both attached; the mouse
interaction's request listener is detached when the primitive succeeds
and leaks when the primitive throws — even though the operation still
returns a result; the no-page precondition exit attaches nothing. -/
theorem c6_listener_cleanup (coordinate : String) (menv : MouseEnv) (env : DoActEnv)
    (ls : Listeners) (mouse : Option String) (size : String) :
    (clickOp coordinate menv true env ls mouse).2.1 =
      (if env.webp = "" ∧ env.png = "" then
         { console := ls.console + 1, pageerror := ls.pageerror + 1,
           request := ls.request +
             (if (parseCoordinate coordinate).isOk ∧ ¬menv.primitiveOk then 1 else 0) }
       else
         { ls with request := ls.request +
             (if (parseCoordinate coordinate).isOk ∧ ¬menv.primitiveOk then 1 else 0) }) ∧
    (resizeOp size true env ls mouse).2.1 =
      (if env.webp = "" ∧ env.png = "" then
         { console := ls.console + 1, pageerror := ls.pageerror + 1, request := ls.request }
       else ls) ∧
    (clickOp coordinate menv false env ls mouse).2.1 = ls ∧
    (resizeOp size false env ls mouse).2.1 = ls := by
  refine ⟨?_, ?_, by simp [clickOp, doActionWithOptions], by simp [resizeOp, doActionWithOptions]⟩
  · rcases hpc : parseCoordinate coordinate with m | p <;>
      cases hprim : menv.primitiveOk <;>
      by_cases hw : env.webp = "" <;> by_cases hp : env.png = "" <;>
      simp [clickOp, doActionWithOptions, handleMouseInteraction, screenshotStep,
        Except.isOk, Except.toBool, hpc, hprim, hw, hp]
  · rcases hps : parseSizePair size with m | p <;>
      by_cases hw : env.webp = "" <;> by_cases hp : env.png = "" <;>
      simp [resizeOp, doActionWithOptions, resizeAction, screenshotStep, Except.isOk,
        Except.toBool, hps, hw, hp]

/-- Counterexample for C3 as stated: with an open page at the
unparseable URL `xyz/` and a request for `xyz//`, the page's root domain
matches the requested one and the normalized URLs differ, yet the code
reloads instead of navigating — the branch re-derives the root domain
from the slash-stripped URL, which no longer matches. -/
theorem c3_navigate_counterexample :
    getRootDomain "xyz/" = getRootDomain (stripTrailingSlash "xyz//") ∧
    stripTrailingSlash "xyz/" ≠ stripTrailingSlash "xyz//" ∧
    navigateToUrl ["xyz/"] "xyz//" = .reloaded 0 := by decide

/-- **C3** (amended): when some open page with a non-empty URL matches
the requested root domain, the first such page is reused (never a new
page); it is navigated exactly when its slash-stripped URL still has the
requested root domain and differs from the normalized requested URL, and
reloaded otherwise; with no matching page a new page is created and
navigated to the normalized URL. -/
theorem c3_navigate_routing (pageUrls : List String) (url : String) :
    ((∃ u ∈ pageUrls, u ≠ "" ∧ getRootDomain u = getRootDomain (stripTrailingSlash url)) →
       ∀ m, navigateToUrl pageUrls url ≠ .created m) ∧
    (∀ i, findMatchingPage pageUrls (getRootDomain (stripTrailingSlash url)) = some i →
       i < pageUrls.length ∧ pageUrls.getD i "" ≠ "" ∧
       getRootDomain (pageUrls.getD i "") = getRootDomain (stripTrailingSlash url) ∧
       navigateToUrl pageUrls url =
         (if getRootDomain (stripTrailingSlash (pageUrls.getD i "")) =
               getRootDomain (stripTrailingSlash url) ∧
             stripTrailingSlash (pageUrls.getD i "") ≠ stripTrailingSlash url
          then .navigated i (stripTrailingSlash url) else .reloaded i)) ∧
    ((∀ u ∈ pageUrls, ¬(u ≠ "" ∧ getRootDomain u = getRootDomain (stripTrailingSlash url))) →
       navigateToUrl pageUrls url = .created (stripTrailingSlash url)) := by
  refine ⟨?_, ?_, ?_⟩
  · intro hex m
    unfold navigateToUrl
    rcases hfm : findMatchingPage pageUrls (getRootDomain (stripTrailingSlash url)) with _ | i
    · have hs := findMatchingPage_isSome pageUrls _ hex
      rw [hfm] at hs; simp at hs
    · split <;> first | (split <;> simp) | simp_all
  · intro i hfm
    have hspec := findMatchingPage_spec _ _ _ hfm
    refine ⟨hspec.1, hspec.2.1, hspec.2.2, ?_⟩
    unfold navigateToUrl
    rw [hfm]
  · intro hall
    unfold navigateToUrl
    rw [findMatchingPage_none _ _ hall]

/-- Witness for C3: a same-domain different-URL request navigates the
existing page; a different-domain request creates a new page. -/
theorem c3_navigate_witness :
    navigateToUrl ["http://a.com/x"] "http://a.com/y" = .navigated 0 "http://a.com/y" ∧
    navigateToUrl ["http://b.com/"] "http://a.com/" = .created "http://a.com" := by
  constructor
  · have h := (c3_navigate_routing ["http://a.com/x"] "http://a.com/y").2.1 0 (by decide)
    rw [h.2.2.2]
    decide
  · exact (c3_navigate_routing ["http://b.com/"] "http://a.com/").2.2 (by decide)

/-- Counterexample for C5 as stated: a session already holding driver 7
relaunches with remote enabled and a successful remote connection; the
launch acquires driver 9 without ever disconnecting or terminating
driver 7. -/
theorem c5_relaunch_counterexample :
    (launchBrowser
        { browser := some 7, page := some 3, currentMousePosition := none,
          isUsingRemoteBrowser := false }
        { remoteBrowserEnabled := true, remoteConnectOk := true, remoteDriver := 9,
          remoteFirstPage := none, remoteNewPage := 4, localDriver := 0,
          localPage := 0 }).2 = [BrowserEv.acquired 9] ∧
    BrowserEv.disconnected 7 ∉
      (launchBrowser
        { browser := some 7, page := some 3, currentMousePosition := none,
          isUsingRemoteBrowser := false }
        { remoteBrowserEnabled := true, remoteConnectOk := true, remoteDriver := 9,
          remoteFirstPage := none, remoteNewPage := 4, localDriver := 0,
          localPage := 0 }).2 ∧
    BrowserEv.terminated 7 ∉
      (launchBrowser
        { browser := some 7, page := some 3, currentMousePosition := none,
          isUsingRemoteBrowser := false }
        { remoteBrowserEnabled := true, remoteConnectOk := true, remoteDriver := 9,
          remoteFirstPage := none, remoteNewPage := 4, localDriver := 0,
          localPage := 0 }).2 := by decide

/-- **C5** (amended): with remote disabled, a relaunch closes the prior
driver first — disconnecting if remote, terminating if local — before the
new driver is acquired; with remote enabled, the launch never closes the
prior driver at all: both the remote connection and the local fallback
simply overwrite the handle. -/
theorem c5_relaunch_closes_prior (s : SessionState) (env : LaunchEnv) (d : ℕ)
    (hd : s.browser = some d) :
    (¬env.remoteBrowserEnabled →
       (launchBrowser s env).2 =
         [if s.isUsingRemoteBrowser then BrowserEv.disconnected d else BrowserEv.terminated d,
          BrowserEv.acquired env.localDriver]) ∧
    (env.remoteBrowserEnabled →
       ∀ d', BrowserEv.disconnected d' ∉ (launchBrowser s env).2 ∧
             BrowserEv.terminated d' ∉ (launchBrowser s env).2) := by
  constructor
  · intro hre
    cases hrem : s.isUsingRemoteBrowser <;>
      simp [launchBrowser, closeBrowser, launchLocalBrowser, resetBrowserState, hd, hre, hrem]
  · intro hre d'
    constructor <;>
      (unfold launchBrowser
       rw [if_neg (by simp [hre])]
       unfold connectRemote launchLocalBrowser
       split <;> simp)

/-- Witness for C5: a local relaunch over a held local driver terminates
it before acquiring the new one. -/
theorem c5_relaunch_witness :
    (launchBrowser
        { browser := some 7, page := some 3, currentMousePosition := none,
          isUsingRemoteBrowser := false }
        { remoteBrowserEnabled := false, remoteConnectOk := false, remoteDriver := 0,
          remoteFirstPage := none, remoteNewPage := 0, localDriver := 2,
          localPage := 1 }).2 = [BrowserEv.terminated 7, BrowserEv.acquired 2] := by
  have h := (c5_relaunch_closes_prior
    { browser := some 7, page := some 3, currentMousePosition := none,
      isUsingRemoteBrowser := false }
    { remoteBrowserEnabled := false, remoteConnectOk := false, remoteDriver := 0,
      remoteFirstPage := none, remoteNewPage := 0, localDriver := 2, localPage := 1 }
    7 rfl).1 (by decide)
  rw [h]
  decide

/-- **C9**: the page-only-with-driver invariant holds of the empty
initial session and is preserved by every public operation: launch (all
branches), close, navigate, the `doAction` family (click, hover, type,
scroll, resize), and the inspection operations. -/
theorem c9_page_implies_browser :
    pageImpliesBrowser initialSession ∧
    ∀ s : SessionState, pageImpliesBrowser s →
      (∀ env, pageImpliesBrowser (launchBrowser s env).1) ∧
      pageImpliesBrowser (closeBrowser s).1 ∧
      (∀ pageUrls url s2 a, navigateToUrlSession s pageUrls url = .ok (s2, a) →
         pageImpliesBrowser s2) ∧
      (∀ act env ls, pageImpliesBrowser (doActionSession act s env ls).2.1) ∧
      (∀ raw inc, pageImpliesBrowser (getPageSourceSession s raw inc).2) ∧
      (∀ el coords u, pageImpliesBrowser (inspectElementSession s el coords u).2) := by
  constructor
  · intro h
    simp [initialSession] at h
  · intro s hs
    refine ⟨?_, ?_, ?_, ?_, fun _ _ => hs, fun _ _ _ => hs⟩
    · intro env
      unfold launchBrowser launchLocalBrowser connectRemote closeBrowser resetBrowserState
      split_ifs <;> simp [pageImpliesBrowser]
    · unfold closeBrowser resetBrowserState
      split_ifs <;> simp [pageImpliesBrowser, hs]
      exact hs
    · intro pageUrls url s2 a h
      unfold navigateToUrlSession at h
      by_cases hb : s.browser.isNone
      · rw [if_pos hb] at h
        exact absurd h (by simp)
      · rw [if_neg hb] at h
        have hbs : s.browser.isSome := by
          rcases hbrow : s.browser with _ | b
          · rw [hbrow] at hb; simp at hb
          · rfl
        split at h <;>
          (injection h with h1; cases h1; intro _; simpa using hbs)
    · intro act env ls
      intro hp
      exact hs hp

/-- Witness for C9: the invariant, instantiated at the empty session and
propagated through one local launch. -/
theorem c9_page_implies_browser_witness :
    pageImpliesBrowser (launchBrowser initialSession
      { remoteBrowserEnabled := false, remoteConnectOk := false, remoteDriver := 0,
        remoteFirstPage := none, remoteNewPage := 0, localDriver := 1, localPage := 2 }).1 :=
  (c9_page_implies_browser.2 initialSession
    (fun h => by simp [initialSession] at h)).1 _
